import Mathlib

/-!
Shallow embedding of the cont-flood-poc client (src/client.go): an HTTP/2
CONTINUATION-flood proof-of-concept. The external framer and HPACK codec are
black boxes; we model the frames the driver issues through them, the
handshake control flow, the background frame reader, the shared stream-id
counter, and the fleet coordinator.
-/

/-- Outcome reported by the transport for one frame write
(`hc.fr.WriteContinuation` / `hc.fr.WriteHeaders`): success, a broken-pipe
signal matched by `errors.Is(err, syscall.EPIPE)`, or some other error. -/
inductive SendOutcome where
  | ok
  | epipe
  | otherErr
deriving DecidableEq, Repr

/-- One literal HPACK field pair (name, value), as handed to the encoder. -/
structure HeaderField where
  name : String
  value : String
deriving DecidableEq, Repr

/-- The two frame kinds the driver writes on its stream. -/
inductive FrameKind where
  | headersK
  | continuationK
deriving DecidableEq, Repr

/-- A frame the driver issues on the wire: kind, stream id, the END_HEADERS
flag, and the field pairs encoded into its header block fragment. -/
structure WireFrame where
  kind : FrameKind
  streamID : Nat
  endHeaders : Bool
  fields : List HeaderField
deriving DecidableEq, Repr

/-- Go `getLongString`: `strings.Repeat("A", 1000)`. -/
def getLongString : String := String.mk (List.replicate 1000 'A')

/-- The field name built by `fmt.Sprintf(":cont-header-#%v", contCount)`. -/
def contFieldName (contCount : Nat) : String :=
  ":cont-header-#" ++ toString contCount

/-- Go `sendContinuationFrames`: the CONTINUATION frame issued for iteration
`contCount` — a fresh block holding exactly one literal field pair, name
templated with the iteration index, value the fixed 1000-byte filler. -/
def sendContinuationFrames (streamID contCount : Nat) (endHeader : Bool) : WireFrame :=
  { kind := FrameKind.continuationK
    streamID := streamID
    endHeaders := endHeader
    fields := [{ name := contFieldName contCount, value := getLongString }] }

/-- The four pseudo-header fields `sendHeader` feeds to the HPACK encoder. -/
def headerFields (path host : String) : List HeaderField :=
  [{ name := ":method", value := "GET" },
   { name := ":path", value := path },
   { name := ":scheme", value := "https" },
   { name := ":authority", value := host }]

/-- Go `sendHeader`: allocates a stream id via
`atomic.AddUint32(&streamCounter, 2)` (the add returns the new 32-bit value)
and issues one HEADERS frame with EndStream=false and EndHeaders=false.
Returns the allocated id with the issued frame. -/
def sendHeader (counter : Nat) (path host : String) : Nat × WireFrame :=
  let streamID := (counter + 2) % 2 ^ 32
  (streamID,
   { kind := FrameKind.headersK
     streamID := streamID
     endHeaders := false
     fields := headerFields path host })

/-- The `for { select ... } }` flood loop of Go `sendRequests`, with `o i` the
transport outcome of the write with iteration index `i`. The fuel argument is
the number of iterations on which the timer channel is not yet ready: when it
reaches 0 the timer case fires, one final CONTINUATION with END_HEADERS=true
is issued (its error discarded) and the loop returns; otherwise a
CONTINUATION with END_HEADERS=false is issued, a broken-pipe outcome logs the
not-vulnerable conclusion and returns, and any other outcome continues with
the count incremented. Returns the issued frames and whether the
not-vulnerable conclusion was logged. -/
def floodLoop (o : Nat → SendOutcome) (streamID : Nat) :
    Nat → Nat → List WireFrame × Bool
  | contCount, 0 => ([sendContinuationFrames streamID contCount true], false)
  | contCount, n + 1 =>
    if o contCount = SendOutcome.epipe then
      ([sendContinuationFrames streamID contCount false], true)
    else
      let r := floodLoop o streamID (contCount + 1) n
      (sendContinuationFrames streamID contCount false :: r.1, r.2)

/-- One driver run's environment: the value of the shared counter the driver
reads, whether the HEADERS write fails, the transport outcome of each
CONTINUATION write by iteration index, the number of loop iterations before
the time budget elapses, and the request target. -/
structure DriverInput where
  counter : Nat
  headerSendFails : Bool
  contOutcome : Nat → SendOutcome
  timerAt : Nat
  path : String
  host : String

/-- What one driver run produces: its allocated stream id, the frames it
issued in order, whether it logged the not-vulnerable conclusion, whether it
logged a HEADERS-write failure, and how many completion signals it published
on the shared channel. -/
structure DriverRun where
  streamID : Nat
  frames : List WireFrame
  loggedNotVulnerable : Bool
  headerFailLogged : Bool
  doneSignals : Nat

/-- Go `sendRequests`: `defer` publishes exactly one completion signal on
every return path; `sendHeader` issues the HEADERS frame (a write failure is
only logged); then the flood loop runs on the allocated stream id. -/
def sendRequests (inp : DriverInput) : DriverRun :=
  let sh := sendHeader inp.counter inp.path inp.host
  let r := floodLoop inp.contOutcome sh.1 0 inp.timerAt
  { streamID := sh.1
    frames := sh.2 :: r.1
    loggedNotVulnerable := r.2
    headerFailLogged := inp.headerSendFails
    doneSignals := 1 }

/-- Go `main` as fleet coordinator: runs one driver per configured
connection, counts the completion signals drained from `doneChan` before the
summary is printed. -/
structure FleetResult where
  driverRuns : List DriverRun
  signalsObserved : Nat
  summaryPrinted : Bool

/-- The coordinator: each input spawns one driver; `wg.Wait` plus the drain
loop observe the published signals before `printSummary`. -/
def runFleet (inps : List DriverInput) : FleetResult :=
  let runs := inps.map sendRequests
  { driverRuns := runs
    signalsObserved := (runs.map DriverRun.doneSignals).sum
    summaryPrinted := true }

/-- Frame types the client can receive, as distinguished by the type switch
and the handshake check. -/
inductive FrameType where
  | settingsT
  | headersT
  | continuationT
  | goawayT
  | otherT
deriving DecidableEq, Repr

/-- A frame read from the peer: its type plus its payload (the settings
values and other bytes the client never inspects). -/
structure RecvFrame where
  ftype : FrameType
  payload : List Nat
deriving DecidableEq, Repr

/-- What one `hc.fr.ReadFrame` call during the handshake yields. -/
inductive ReadResult where
  | frame (f : RecvFrame)
  | readErr
deriving DecidableEq, Repr

/-- The fixed HTTP/2 client connection preface string. -/
def ClientPreface : String := "PRI * HTTP/2.0\r\n\r\nSM\r\n\r\n"

/-- The environment of the setup phase of one driver: whether the TLS dial
succeeds, whether `cc.Write` of the preface errors and how many bytes it
reports written, whether the initial SETTINGS write succeeds, the first read
from the peer, and whether the SETTINGS-ACK write succeeds. -/
structure SetupEnv where
  dialOk : Bool
  prefaceWriteErr : Bool
  prefaceBytesWritten : Nat
  settingsWriteOk : Bool
  firstRead : ReadResult
  ackWriteOk : Bool
deriving DecidableEq, Repr

/-- Go `wantSettings` as a check: a read error fails, and a frame passes
exactly when its type is SETTINGS — the payload is never inspected (the
returned settings frame is discarded by the caller). -/
def wantSettings (r : ReadResult) : Bool :=
  match r with
  | ReadResult.frame f => f.ftype == FrameType.settingsT
  | ReadResult.readErr => false

/-- Go `writePreface` succeeds when the write reports no error and exactly
`len(ClientPreface)` bytes written. -/
def writePreface (env : SetupEnv) : Bool :=
  !env.prefaceWriteErr && env.prefaceBytesWritten == ClientPreface.length

/-- Result of the setup phase: `processAbort` models `log.Fatalf`/`log.Fatal`
terminating the whole process (no value is ever returned to a caller), and
`ready` means the driver proceeds to the flood. -/
inductive SetupResult where
  | processAbort
  | ready
deriving DecidableEq, Repr

/-- The setup phase of Go `testContinuationFlood`: dial, preface, initial
SETTINGS, first-frame check, SETTINGS-ACK — every failure calls `log.Fatal`
and aborts the process. -/
def testContinuationFlood (env : SetupEnv) : SetupResult :=
  if !env.dialOk then SetupResult.processAbort
  else if !writePreface env then SetupResult.processAbort
  else if !env.settingsWriteOk then SetupResult.processAbort
  else if !wantSettings env.firstRead then SetupResult.processAbort
  else if !env.ackWriteOk then SetupResult.processAbort
  else SetupResult.ready

/-- What the client puts on the connection, in order: the preface bytes, the
initial SETTINGS frame, the SETTINGS-ACK, and then the frames of the driver
run. -/
inductive OutMsg where
  | prefaceBytes
  | settingsFrame
  | settingsAck
  | frame (f : WireFrame)
deriving DecidableEq, Repr

/-- One whole client run as the ordered list of messages it sends: setup
writes up to the point of any fatal abort, then the driver frames when the
handshake completed. Only the type of the first received frame is consulted;
its payload is discarded unread. -/
def clientRun (env : SetupEnv) (inp : DriverInput) : List OutMsg :=
  if !env.dialOk then []
  else if !writePreface env then [OutMsg.prefaceBytes]
  else if !env.settingsWriteOk then [OutMsg.prefaceBytes, OutMsg.settingsFrame]
  else if !wantSettings env.firstRead then
    [OutMsg.prefaceBytes, OutMsg.settingsFrame]
  else if !env.ackWriteOk then
    [OutMsg.prefaceBytes, OutMsg.settingsFrame, OutMsg.settingsAck]
  else
    [OutMsg.prefaceBytes, OutMsg.settingsFrame, OutMsg.settingsAck] ++
      (sendRequests inp).frames.map OutMsg.frame

/-- The same setup environment with the peer answering first with a SETTINGS
frame carrying payload `p`. -/
def withSettingsFirstRead (env : SetupEnv) (p : List Nat) : SetupEnv :=
  { env with
    firstRead := ReadResult.frame { ftype := FrameType.settingsT, payload := p } }

/-- What one `ReadFrame` call in the background reader goroutine yields:
a frame, `io.EOF`, or any other read error. -/
inductive ReadEvent where
  | frameEvt (f : RecvFrame)
  | eofErr
  | otherReadErr
deriving DecidableEq, Repr

/-- Observable effect of the background reader: how far the shared
`recvFrames` counter moved and how many read errors it logged. -/
structure ReaderResult where
  recvFrames : Nat
  errorLogs : Nat
deriving DecidableEq, Repr

/-- The background reader goroutine of `testContinuationFlood`, run over a
finite window of read results: `io.EOF` returns silently, any other read
error is logged and the loop keeps reading, and every received frame
increments the shared receive counter. -/
def readerLoop : List ReadEvent → ReaderResult
  | [] => { recvFrames := 0, errorLogs := 0 }
  | ReadEvent.eofErr :: _ => { recvFrames := 0, errorLogs := 0 }
  | ReadEvent.otherReadErr :: rest =>
    let r := readerLoop rest
    { recvFrames := r.recvFrames, errorLogs := r.errorLogs + 1 }
  | ReadEvent.frameEvt _ :: rest =>
    let r := readerLoop rest
    { recvFrames := r.recvFrames + 1, errorLogs := r.errorLogs }

/-- True for every read result other than `io.EOF`. -/
def notEof : ReadEvent → Bool
  | ReadEvent.eofErr => false
  | _ => true

/-- True exactly for a received frame. -/
def isFrameEvt : ReadEvent → Bool
  | ReadEvent.frameEvt _ => true
  | _ => false

/-- True exactly for a non-EOF read error. -/
def isOtherReadErr : ReadEvent → Bool
  | ReadEvent.otherReadErr => true
  | _ => false

/-- The two touches each driver goroutine gives the shared stream counter:
`streamCounter = 1` at the top of `testContinuationFlood` (a plain store),
and the `atomic.AddUint32(&streamCounter, 2)` allocation in `sendHeader`. -/
inductive CtrAction where
  | seedReset
  | allocate
deriving DecidableEq, Repr

/-- The shared counter together with the stream ids allocated so far, in
allocation order. -/
structure CtrState where
  streamCounter : Nat
  allocatedIDs : List Nat
deriving DecidableEq, Repr

/-- One action against the shared counter: the per-goroutine seed store sets
it to 1; an allocation adds 2 modulo 2^32 and records the new value as the
allocated stream id. -/
def ctrStep (s : CtrState) : CtrAction → CtrState
  | CtrAction.seedReset => { s with streamCounter := 1 }
  | CtrAction.allocate =>
    let sid := (s.streamCounter + 2) % 2 ^ 32
    { streamCounter := sid, allocatedIDs := s.allocatedIDs ++ [sid] }

/-- An interleaved schedule of counter actions run from the zero-initialised
global. Each driver goroutine contributes its `seedReset` followed later by
its `allocate`; a schedule is any interleaving of those programs. -/
def ctrRun (acts : List CtrAction) : CtrState :=
  acts.foldl ctrStep { streamCounter := 0, allocatedIDs := [] }

/-! ### Helper lemmas on the flood loop -/

theorem cons_map_range {α : Type} (g : Nat → α) (n : Nat) :
    (List.range (n + 1)).map g = g 0 :: (List.range n).map (fun i => g (i + 1)) := by
  rw [List.range_succ_eq_map]
  simp [List.map_map, Function.comp, Nat.succ_eq_add_one]

theorem floodLoop_zero (o : Nat → SendOutcome) (sid cnt : Nat) :
    floodLoop o sid cnt 0 = ([sendContinuationFrames sid cnt true], false) := rfl

theorem floodLoop_succ_epipe (o : Nat → SendOutcome) (sid cnt n : Nat)
    (h : o cnt = SendOutcome.epipe) :
    floodLoop o sid cnt (n + 1) =
      ([sendContinuationFrames sid cnt false], true) := by
  simp [floodLoop, h]

theorem floodLoop_succ_ok (o : Nat → SendOutcome) (sid cnt n : Nat)
    (h : o cnt ≠ SendOutcome.epipe) :
    floodLoop o sid cnt (n + 1) =
      (sendContinuationFrames sid cnt false :: (floodLoop o sid (cnt + 1) n).1,
       (floodLoop o sid (cnt + 1) n).2) := by
  simp [floodLoop, h]

/-- When no broken pipe occurs before the timer fires, the loop issues `n`
false-flagged CONTINUATION frames and one final true-flagged one, and does
not log the not-vulnerable conclusion. -/
theorem floodLoop_no_epipe (o : Nat → SendOutcome) (sid : Nat) :
    ∀ n cnt, (∀ j, j < n → o (cnt + j) ≠ SendOutcome.epipe) →
      floodLoop o sid cnt n =
        ((List.range n).map (fun i => sendContinuationFrames sid (cnt + i) false)
          ++ [sendContinuationFrames sid (cnt + n) true], false) := by
  intro n
  induction n with
  | zero => intro cnt _; simp [floodLoop_zero]
  | succ n ih =>
    intro cnt h
    have h0 : o cnt ≠ SendOutcome.epipe := by
      have := h 0 (Nat.succ_pos n)
      simpa using this
    rw [floodLoop_succ_ok o sid cnt n h0]
    have hs : ∀ j, j < n → o (cnt + 1 + j) ≠ SendOutcome.epipe := by
      intro j hj
      have := h (j + 1) (by omega)
      have e : cnt + (j + 1) = cnt + 1 + j := by omega
      rwa [e] at this
    rw [ih (cnt + 1) hs]
    rw [cons_map_range (fun i => sendContinuationFrames sid (cnt + i) false) n]
    have hfun : (fun i => sendContinuationFrames sid (cnt + 1 + i) false)
        = fun i => sendContinuationFrames sid (cnt + (i + 1)) false := by
      funext i
      have e : cnt + 1 + i = cnt + (i + 1) := by omega
      rw [e]
    rw [hfun]
    have e : cnt + 1 + n = cnt + (n + 1) := by omega
    rw [e]
    simp

/-- When the first broken pipe occurs at iteration `k` before the timer
fires, the loop issues exactly `k + 1` false-flagged CONTINUATION frames,
logs the not-vulnerable conclusion, and never issues a true-flagged frame. -/
theorem floodLoop_first_epipe (o : Nat → SendOutcome) (sid : Nat) :
    ∀ n cnt k, k < n → o (cnt + k) = SendOutcome.epipe →
      (∀ j, j < k → o (cnt + j) ≠ SendOutcome.epipe) →
      floodLoop o sid cnt n =
        ((List.range (k + 1)).map
          (fun i => sendContinuationFrames sid (cnt + i) false), true) := by
  intro n
  induction n with
  | zero => intro cnt k hk; omega
  | succ n ih =>
    intro cnt k hk he hmin
    match k with
    | 0 =>
      have h0 : o cnt = SendOutcome.epipe := by simpa using he
      rw [floodLoop_succ_epipe o sid cnt n h0]
      simp [List.range_succ]
    | k + 1 =>
      have h0 : o cnt ≠ SendOutcome.epipe := by
        have := hmin 0 (Nat.succ_pos k)
        simpa using this
      rw [floodLoop_succ_ok o sid cnt n h0]
      have he' : o (cnt + 1 + k) = SendOutcome.epipe := by
        have e : cnt + (k + 1) = cnt + 1 + k := by omega
        rwa [e] at he
      have hmin' : ∀ j, j < k → o (cnt + 1 + j) ≠ SendOutcome.epipe := by
        intro j hj
        have := hmin (j + 1) (by omega)
        have e : cnt + (j + 1) = cnt + 1 + j := by omega
        rwa [e] at this
      rw [ih (cnt + 1) k (by omega) he' hmin']
      rw [cons_map_range (fun i => sendContinuationFrames sid (cnt + i) false)
        (k + 1)]
      have hfun : (fun i => sendContinuationFrames sid (cnt + 1 + i) false)
        = fun i => sendContinuationFrames sid (cnt + (i + 1)) false := by
        funext i
        have e : cnt + 1 + i = cnt + (i + 1) := by omega
        rw [e]
      rw [hfun]
      simp

/-- The flood loop always issues at least one frame. -/
theorem floodLoop_ne_nil (o : Nat → SendOutcome) (sid : Nat) :
    ∀ n cnt, (floodLoop o sid cnt n).1 ≠ [] := by
  intro n cnt
  cases n with
  | zero => simp [floodLoop_zero]
  | succ n =>
    by_cases h : o cnt = SendOutcome.epipe
    · simp [floodLoop_succ_epipe o sid cnt n h]
    · simp [floodLoop_succ_ok o sid cnt n h]

/-- Every frame the flood loop issues is a CONTINUATION frame on the stream
the loop was given. -/
theorem floodLoop_mem (o : Nat → SendOutcome) (sid : Nat) :
    ∀ n cnt f, f ∈ (floodLoop o sid cnt n).1 →
      f.kind = FrameKind.continuationK ∧ f.streamID = sid := by
  intro n
  induction n with
  | zero =>
    intro cnt f hf
    rw [floodLoop_zero] at hf
    simp at hf
    subst hf
    exact ⟨rfl, rfl⟩
  | succ n ih =>
    intro cnt f hf
    by_cases h : o cnt = SendOutcome.epipe
    · rw [floodLoop_succ_epipe o sid cnt n h] at hf
      simp at hf
      subst hf
      exact ⟨rfl, rfl⟩
    · rw [floodLoop_succ_ok o sid cnt n h] at hf
      simp at hf
      rcases hf with hf | hf
      · subst hf
        exact ⟨rfl, rfl⟩
      · exact ih (cnt + 1) f hf

/-- The frame at position `j` of the flood loop output carries exactly one
literal field pair whose name is templated with iteration index `cnt + j` and
whose value is the fixed filler string. -/
theorem floodLoop_get? (o : Nat → SendOutcome) (sid : Nat) :
    ∀ n cnt j f, (floodLoop o sid cnt n).1.get? j = some f →
      f.kind = FrameKind.continuationK ∧
      f.fields = [{ name := contFieldName (cnt + j), value := getLongString }] := by
  intro n
  induction n with
  | zero =>
    intro cnt j f hf
    rw [floodLoop_zero] at hf
    cases j with
    | zero =>
      simp at hf
      subst hf
      exact ⟨rfl, rfl⟩
    | succ j => simp at hf
  | succ n ih =>
    intro cnt j f hf
    by_cases h : o cnt = SendOutcome.epipe
    · rw [floodLoop_succ_epipe o sid cnt n h] at hf
      cases j with
      | zero =>
        simp at hf
        subst hf
        exact ⟨rfl, rfl⟩
      | succ j => simp at hf
    · rw [floodLoop_succ_ok o sid cnt n h] at hf
      cases j with
      | zero =>
        simp at hf
        subst hf
        exact ⟨rfl, rfl⟩
      | succ j =>
        rw [List.get?_cons_succ] at hf
        have := ih (cnt + 1) j f hf
        refine ⟨this.1, ?_⟩
        rw [this.2]
        have e : cnt + 1 + j = cnt + (j + 1) := by omega
        rw [e]

/-- Summing the constant 1 over a list counts its length. -/
theorem sum_map_ones {α : Type} (l : List α) :
    (l.map (fun _ => (1 : Nat))).sum = l.length := by
  induction l with
  | nil => rfl
  | cons a l ih => simp [ih, Nat.add_comm]

/-- The filler value really is 1000 bytes long. -/
theorem getLongString_length : getLongString.length = 1000 := by
  show (List.replicate 1000 'A').length = 1000
  exact List.length_replicate 1000 'A'

/-! ### Sample inputs used by witnesses -/

/-- A driver environment in which every write succeeds and the timer fires
after two loop iterations. -/
def sampleOkInput : DriverInput :=
  { counter := 1
    headerSendFails := false
    contOutcome := fun _ => SendOutcome.ok
    timerAt := 2
    path := "/"
    host := "localhost:8443" }

/-- A driver environment whose transport reports a broken pipe on the second
CONTINUATION write, well before the timer fires. -/
def sampleEpipeInput : DriverInput :=
  { counter := 1
    headerSendFails := false
    contOutcome := fun i => if i = 1 then SendOutcome.epipe else SendOutcome.ok
    timerAt := 5
    path := "/"
    host := "localhost:8443" }

/-- A driver environment whose HEADERS write fails but whose CONTINUATION
writes succeed. -/
def sampleHeaderFailInput : DriverInput :=
  { counter := 1
    headerSendFails := true
    contOutcome := fun _ => SendOutcome.ok
    timerAt := 3
    path := "/"
    host := "localhost:8443" }

/-- A driver environment in which the loop writes succeed but the final
END_HEADERS=true write after timer expiry reports a broken pipe. -/
def sampleFinalEpipeInput : DriverInput :=
  { counter := 1
    headerSendFails := false
    contOutcome := fun i => if i < 2 then SendOutcome.ok else SendOutcome.epipe
    timerAt := 2
    path := "/"
    host := "localhost:8443" }

/-! ### The claims -/

/-- C1: within a single driver run, the issued frame sequence for its stream
is exactly one HEADERS frame with END_HEADERS=false, followed by zero or
more CONTINUATION frames with END_HEADERS=false, followed by at most one
CONTINUATION frame with END_HEADERS=true; the final true-flagged frame
appears exactly when the time budget elapsed without a prior broken-pipe
signal on a CONTINUATION send. -/
theorem driver_frame_wire_sequence (inp : DriverInput) :
    ∃ n : Nat, ∃ finalSent : Bool,
      (sendRequests inp).frames =
        (sendHeader inp.counter inp.path inp.host).2 ::
          ((List.range n).map
            (fun i => sendContinuationFrames (sendRequests inp).streamID i false)
           ++ (if finalSent then
                [sendContinuationFrames (sendRequests inp).streamID n true]
              else [])) ∧
      (sendHeader inp.counter inp.path inp.host).2.kind = FrameKind.headersK ∧
      (sendHeader inp.counter inp.path inp.host).2.endHeaders = false ∧
      (finalSent = true ↔
        ∀ k, k < inp.timerAt → inp.contOutcome k ≠ SendOutcome.epipe) := by
  by_cases hno : ∀ k, k < inp.timerAt → inp.contOutcome k ≠ SendOutcome.epipe
  · refine ⟨inp.timerAt, true, ?_, rfl, rfl, Iff.intro (fun _ => hno) (fun _ => rfl)⟩
    have hchar := floodLoop_no_epipe inp.contOutcome
      (sendHeader inp.counter inp.path inp.host).1 inp.timerAt 0
      (fun j hj => by simpa using hno j hj)
    simp only [sendRequests]
    rw [hchar]
    simp
  · push_neg at hno
    obtain ⟨k, hk, he⟩ := hno
    have hex : ∃ j, inp.contOutcome j = SendOutcome.epipe := ⟨k, he⟩
    have hke : inp.contOutcome (Nat.find hex) = SendOutcome.epipe :=
      Nat.find_spec hex
    have hklt : Nat.find hex < inp.timerAt :=
      lt_of_le_of_lt (Nat.find_min' hex he) hk
    have hmin : ∀ j, j < Nat.find hex →
        inp.contOutcome j ≠ SendOutcome.epipe :=
      fun j hj => Nat.find_min hex hj
    refine ⟨Nat.find hex + 1, false, ?_, rfl, rfl, ?_⟩
    · have hchar := floodLoop_first_epipe inp.contOutcome
        (sendHeader inp.counter inp.path inp.host).1 inp.timerAt 0
        (Nat.find hex) hklt (by simpa using hke)
        (fun j hj => by simpa using hmin j hj)
      simp only [sendRequests]
      rw [hchar]
      simp
    · simp only [Bool.false_eq_true, false_iff]
      intro hall
      exact hall (Nat.find hex) hklt hke

/-- C1 witness: the frame-sequence shape at a concrete environment. -/
theorem driver_frame_wire_sequence_witness :
    ∃ n : Nat, ∃ finalSent : Bool,
      (sendRequests sampleOkInput).frames =
        (sendHeader sampleOkInput.counter sampleOkInput.path
          sampleOkInput.host).2 ::
          ((List.range n).map
            (fun i => sendContinuationFrames
              (sendRequests sampleOkInput).streamID i false)
           ++ (if finalSent then
                [sendContinuationFrames
                  (sendRequests sampleOkInput).streamID n true]
              else [])) ∧
      (sendHeader sampleOkInput.counter sampleOkInput.path
        sampleOkInput.host).2.kind = FrameKind.headersK ∧
      (sendHeader sampleOkInput.counter sampleOkInput.path
        sampleOkInput.host).2.endHeaders = false ∧
      (finalSent = true ↔
        ∀ k, k < sampleOkInput.timerAt →
          sampleOkInput.contOutcome k ≠ SendOutcome.epipe) :=
  driver_frame_wire_sequence sampleOkInput

/-- C3: when a CONTINUATION send inside the flood loop first reports a
broken pipe at iteration `k` (before the timer fires), the driver logs the
not-vulnerable conclusion, stops after that frame — the trace is the HEADERS
frame plus `k + 1` CONTINUATION frames — and never issues an
END_HEADERS=true frame. -/
theorem epipe_stops_flood (inp : DriverInput) (k : Nat)
    (hk : k < inp.timerAt)
    (he : inp.contOutcome k = SendOutcome.epipe)
    (hmin : ∀ j, j < k → inp.contOutcome j ≠ SendOutcome.epipe) :
    (sendRequests inp).loggedNotVulnerable = true ∧
    (sendRequests inp).frames.length = k + 2 ∧
    ∀ f ∈ (sendRequests inp).frames, f.endHeaders = false := by
  have hchar := floodLoop_first_epipe inp.contOutcome
    (sendHeader inp.counter inp.path inp.host).1 inp.timerAt 0 k hk
    (by simpa using he) (fun j hj => by simpa using hmin j hj)
  refine ⟨?_, ?_, ?_⟩
  · simp [sendRequests, hchar]
  · simp only [sendRequests]
    rw [hchar]
    simp
  · intro f hf
    simp only [sendRequests] at hf
    rw [hchar] at hf
    simp [List.mem_map] at hf
    rcases hf with hf | ⟨i, hi, hf⟩
    · rw [hf]
      rfl
    · rw [← hf]
      rfl

/-- C3 witness: the broken-pipe behaviour at a concrete environment with the
first broken pipe at iteration 1. -/
theorem epipe_stops_flood_witness :
    (1 < sampleEpipeInput.timerAt ∧
     sampleEpipeInput.contOutcome 1 = SendOutcome.epipe ∧
     (∀ j, j < 1 → sampleEpipeInput.contOutcome j ≠ SendOutcome.epipe)) ∧
    ((sendRequests sampleEpipeInput).loggedNotVulnerable = true ∧
     (sendRequests sampleEpipeInput).frames.length = 1 + 2 ∧
     ∀ f ∈ (sendRequests sampleEpipeInput).frames, f.endHeaders = false) :=
  ⟨⟨by decide, by decide, by decide⟩,
   epipe_stops_flood sampleEpipeInput 1 (by decide) (by decide) (by decide)⟩

/-- C6: a failed HEADERS write is logged with the stream id but aborts
nothing — the HEADERS frame is still first in the trace and the driver still
enters the flood loop, issuing CONTINUATION frames on the allocated stream
id. -/
theorem headers_failure_not_fatal (inp : DriverInput)
    (h : inp.headerSendFails = true) :
    (sendRequests inp).headerFailLogged = true ∧
    (sendRequests inp).frames.head? =
      some (sendHeader inp.counter inp.path inp.host).2 ∧
    ∃ f ∈ (sendRequests inp).frames.tail,
      f.kind = FrameKind.continuationK ∧
      f.streamID = (sendRequests inp).streamID := by
  refine ⟨by simp [sendRequests, h], by simp [sendRequests], ?_⟩
  have hne := floodLoop_ne_nil inp.contOutcome
    (sendHeader inp.counter inp.path inp.host).1 inp.timerAt 0
  obtain ⟨f, hf⟩ := List.exists_mem_of_ne_nil _ hne
  have hprops := floodLoop_mem inp.contOutcome
    (sendHeader inp.counter inp.path inp.host).1 inp.timerAt 0 f hf
  exact ⟨f, by simpa [sendRequests] using hf, hprops.1, hprops.2⟩

/-- C6 witness: the headers-failure behaviour at a concrete environment. -/
theorem headers_failure_not_fatal_witness :
    sampleHeaderFailInput.headerSendFails = true ∧
    ((sendRequests sampleHeaderFailInput).headerFailLogged = true ∧
     (sendRequests sampleHeaderFailInput).frames.head? =
       some (sendHeader sampleHeaderFailInput.counter
         sampleHeaderFailInput.path sampleHeaderFailInput.host).2 ∧
     ∃ f ∈ (sendRequests sampleHeaderFailInput).frames.tail,
       f.kind = FrameKind.continuationK ∧
       f.streamID = (sendRequests sampleHeaderFailInput).streamID) :=
  ⟨rfl, headers_failure_not_fatal sampleHeaderFailInput rfl⟩

/-- C9: when the time budget expires with no prior broken pipe, the error of
the final END_HEADERS=true CONTINUATION send is discarded — whatever outcome
the transport reports for it (the hypothesis constrains only iterations
before the timer), the driver returns normally: it logs no not-vulnerable
conclusion, the final frame is last in the trace, and exactly one completion
signal is published. -/
theorem final_send_error_ignored (inp : DriverInput)
    (h : ∀ k, k < inp.timerAt → inp.contOutcome k ≠ SendOutcome.epipe) :
    (sendRequests inp).doneSignals = 1 ∧
    (sendRequests inp).loggedNotVulnerable = false ∧
    (sendRequests inp).frames.getLast? =
      some (sendContinuationFrames (sendRequests inp).streamID
        inp.timerAt true) := by
  have hchar := floodLoop_no_epipe inp.contOutcome
    (sendHeader inp.counter inp.path inp.host).1 inp.timerAt 0
    (fun j hj => by simpa using h j hj)
  refine ⟨rfl, by simp [sendRequests, hchar], ?_⟩
  simp only [sendRequests]
  rw [hchar]
  simp only [Nat.zero_add]
  rw [← List.cons_append, List.getLast?_concat]

/-- C9 witness: at a concrete environment whose final END_HEADERS=true send
itself reports a broken pipe, the driver still completes normally. -/
theorem final_send_error_ignored_witness :
    sampleFinalEpipeInput.contOutcome sampleFinalEpipeInput.timerAt =
      SendOutcome.epipe ∧
    (∀ k, k < sampleFinalEpipeInput.timerAt →
      sampleFinalEpipeInput.contOutcome k ≠ SendOutcome.epipe) ∧
    ((sendRequests sampleFinalEpipeInput).doneSignals = 1 ∧
     (sendRequests sampleFinalEpipeInput).loggedNotVulnerable = false ∧
     (sendRequests sampleFinalEpipeInput).frames.getLast? =
       some (sendContinuationFrames
         (sendRequests sampleFinalEpipeInput).streamID
         sampleFinalEpipeInput.timerAt true)) :=
  ⟨by decide, by decide, final_send_error_ignored sampleFinalEpipeInput (by decide)⟩

/-- C8: every CONTINUATION frame the driver issues — the frame at any
position `i + 1` of the trace — carries a header block encoding exactly one
literal field pair, whose name is templated with the per-iteration index `i`
and whose value is the fixed 1000-byte filler string. -/
theorem continuation_payload_shape (inp : DriverInput) (i : Nat)
    (f : WireFrame)
    (h : (sendRequests inp).frames.get? (i + 1) = some f) :
    f.kind = FrameKind.continuationK ∧
    f.fields = [{ name := contFieldName i, value := getLongString }] ∧
    getLongString.length = 1000 := by
  have h' : (floodLoop inp.contOutcome
      (sendHeader inp.counter inp.path inp.host).1 0 inp.timerAt).1.get? i =
      some f := by
    simpa [sendRequests, List.get?_cons_succ] using h
  have hp := floodLoop_get? inp.contOutcome
    (sendHeader inp.counter inp.path inp.host).1 inp.timerAt 0 i f h'
  exact ⟨hp.1, by simpa using hp.2, getLongString_length⟩

/-- C8 witness: the payload of the first CONTINUATION frame at a concrete
environment. -/
theorem continuation_payload_shape_witness :
    (sendRequests sampleOkInput).frames.get? 1 =
      some (sendContinuationFrames 3 0 false) ∧
    ((sendContinuationFrames 3 0 false).kind = FrameKind.continuationK ∧
     (sendContinuationFrames 3 0 false).fields =
       [{ name := contFieldName 0, value := getLongString }] ∧
     getLongString.length = 1000) :=
  ⟨rfl, continuation_payload_shape sampleOkInput 0
    (sendContinuationFrames 3 0 false) rfl⟩

/-- C4: for any fleet of N ≥ 1 drivers, every driver publishes exactly one
completion signal whatever its send outcomes were, and the coordinator
observes exactly N signals before it prints the summary. -/
theorem fleet_completion_signals (inps : List DriverInput)
    (h : 1 ≤ inps.length) :
    (runFleet inps).signalsObserved = inps.length ∧
    (∀ r ∈ (runFleet inps).driverRuns, r.doneSignals = 1) ∧
    (runFleet inps).summaryPrinted = true := by
  refine ⟨?_, ?_, rfl⟩
  · simp only [runFleet, List.map_map]
    have e : DriverRun.doneSignals ∘ sendRequests =
        fun _ : DriverInput => (1 : Nat) := funext (fun _ => rfl)
    rw [e, sum_map_ones]
  · intro r hr
    simp only [runFleet, List.mem_map] at hr
    obtain ⟨inp, _, rfl⟩ := hr
    rfl

/-- C4 witness: a fleet of two drivers, one of which hits a broken pipe,
still yields exactly two completion signals. -/
theorem fleet_completion_signals_witness :
    1 ≤ ([sampleOkInput, sampleEpipeInput] : List DriverInput).length ∧
    ((runFleet [sampleOkInput, sampleEpipeInput]).signalsObserved =
       ([sampleOkInput, sampleEpipeInput] : List DriverInput).length ∧
     (∀ r ∈ (runFleet [sampleOkInput, sampleEpipeInput]).driverRuns,
       r.doneSignals = 1) ∧
     (runFleet [sampleOkInput, sampleEpipeInput]).summaryPrinted = true) :=
  ⟨by decide, fleet_completion_signals [sampleOkInput, sampleEpipeInput]
    (by decide)⟩

/-- C5: the setup phase reaches the flood only when the dial, the full
24-byte preface write, the SETTINGS write, the first-frame SETTINGS check
and the SETTINGS-ACK write all succeed; each of those failures yields
`processAbort` — the model of `log.Fatal` terminating the whole process, no
error value ever being returned to a caller. -/
theorem setup_errors_abort_process (env : SetupEnv) :
    (testContinuationFlood env = SetupResult.ready ↔
      (env.dialOk = true ∧ env.prefaceWriteErr = false ∧
       env.prefaceBytesWritten = ClientPreface.length ∧
       env.settingsWriteOk = true ∧ wantSettings env.firstRead = true ∧
       env.ackWriteOk = true)) ∧
    ClientPreface.length = 24 := by
  refine ⟨?_, rfl⟩
  obtain ⟨dOk, pErr, pN, sOk, fr, aOk⟩ := env
  cases dOk <;> cases pErr <;> cases sOk <;> cases aOk <;>
    by_cases hp : pN = ClientPreface.length <;>
    by_cases hw : wantSettings fr = true <;>
      simp [testContinuationFlood, writePreface, beq_iff_eq, hp, hw]

/-- C7: over any window of reads, the background reader counts exactly the
frames received before the first EOF, logs exactly the non-EOF read errors
before the first EOF while continuing to read past them, and an EOF
terminates it silently (no log, later events ignored). -/
theorem reader_loop_behaviour :
    (∀ evts : List ReadEvent,
      readerLoop evts =
        { recvFrames := (evts.takeWhile notEof).countP isFrameEvt
          errorLogs := (evts.takeWhile notEof).countP isOtherReadErr }) ∧
    (∀ rest : List ReadEvent,
      readerLoop (ReadEvent.eofErr :: rest) =
        { recvFrames := 0, errorLogs := 0 }) ∧
    (∀ rest : List ReadEvent,
      readerLoop (ReadEvent.otherReadErr :: rest) =
        { recvFrames := (readerLoop rest).recvFrames
          errorLogs := (readerLoop rest).errorLogs + 1 }) ∧
    (∀ (f : RecvFrame) (rest : List ReadEvent),
      readerLoop (ReadEvent.frameEvt f :: rest) =
        { recvFrames := (readerLoop rest).recvFrames + 1
          errorLogs := (readerLoop rest).errorLogs }) := by
  refine ⟨?_, fun _ => rfl, fun _ => rfl, fun _ _ => rfl⟩
  intro evts
  induction evts with
  | nil => rfl
  | cons e rest ih =>
    cases e <;>
      simp [readerLoop, notEof, isFrameEvt, isOtherReadErr,
        List.takeWhile_cons, List.countP_cons, ih]

/-- C10: the client consults only the type of the first received frame —
`wantSettings` passes any SETTINGS frame, its settings values are discarded
unread, and two runs whose peers answer with SETTINGS frames differing only
in payload produce identical client output, SETTINGS-ACK and all subsequent
frames included. -/
theorem settings_payload_noninterference :
    (∀ (env : SetupEnv) (inp : DriverInput) (p q : List Nat),
      clientRun (withSettingsFirstRead env p) inp =
        clientRun (withSettingsFirstRead env q) inp) ∧
    (∀ (env : SetupEnv) (p : List Nat),
      wantSettings (withSettingsFirstRead env p).firstRead = true) ∧
    (∀ f : RecvFrame,
      wantSettings (ReadResult.frame f) = (f.ftype == FrameType.settingsT)) := by
  refine ⟨?_, fun _ _ => rfl, fun _ => rfl⟩
  intro env inp p q
  simp [clientRun, wantSettings, withSettingsFirstRead, writePreface]

/-- C2 evaluated at the failing schedule: because every driver goroutine
re-executes the seed store `streamCounter = 1` before its allocation, the
fully staggered schedule of three connections (each handshake finishing
within the stagger window, so each reset precedes the next allocation)
allocates the stream id 3 to all three drivers — the ids are not pairwise
distinct, contradicting the claimed invariant. -/
theorem stream_ids_collide_under_reseed :
    (ctrRun [CtrAction.seedReset, CtrAction.allocate, CtrAction.seedReset,
      CtrAction.allocate, CtrAction.seedReset,
      CtrAction.allocate]).allocatedIDs = [3, 3, 3] ∧
    ¬ (ctrRun [CtrAction.seedReset, CtrAction.allocate, CtrAction.seedReset,
      CtrAction.allocate, CtrAction.seedReset,
      CtrAction.allocate]).allocatedIDs.Nodup := by
  constructor
  · decide
  · decide
